import Mathlib

/-
Verification of databricks-utils: a shallow embedding of the reconciliation
helper (`create_or_update`), the spec merge (`dict.update` semantics), the
polling loops (`wait_for_update`, `wait_for_run`) and the notebook
import/export helpers, with theorems checking the specification's claims.

Python values appearing in specifications are modelled by `JValue`; Python
dicts by insertion-ordered association lists (`Dict`).  The remote SDK client
(`client.pipelines.*`, `client.workspace.*`, the file system, base64) is an
external collaborator: it is modelled by an explicit record of responses,
where a raised exception is an `Except.error` carrying the exception's
message (`str(e)`).  Each embedded function additionally returns the list of
facade calls it issued, so that claims about which remote calls happen (and
which never happen) are statable.
-/

namespace DatabricksUtils

/-- JSON-like Python value: the values that can appear in a pipeline
specification (parsed JSON / dict entries). -/
inductive JValue where
  | null
  | bool (b : Bool)
  | num (n : Int)
  | str (s : String)
  | arr (elems : List JValue)
  | obj (fields : List (String × JValue))

mutual

/-- Python `==` on JSON-like values: structural equality. -/
def JValue.beq : JValue → JValue → Bool
  | .null, .null => true
  | .bool a, .bool b => a == b
  | .num a, .num b => a == b
  | .str a, .str b => a == b
  | .arr as, .arr bs => JValue.beqList as bs
  | .obj fs, .obj gs => JValue.beqFields fs gs
  | _, _ => false

/-- Elementwise `JValue.beq` on lists. -/
def JValue.beqList : List JValue → List JValue → Bool
  | [], [] => true
  | a :: as, b :: bs => JValue.beq a b && JValue.beqList as bs
  | _, _ => false

/-- Elementwise `JValue.beq` on key-value pair lists. -/
def JValue.beqFields : List (String × JValue) → List (String × JValue) → Bool
  | [], [] => true
  | (k, v) :: fs, (l, w) :: gs => k == l && JValue.beq v w && JValue.beqFields fs gs
  | _, _ => false

end

instance : BEq JValue := ⟨JValue.beq⟩

/-- Python truthiness (`if not x`) of a JSON-like value. -/
def JValue.truthy : JValue → Bool
  | .null => false
  | .bool b => b
  | .num n => n != 0
  | .str s => !s.isEmpty
  | .arr xs => !xs.isEmpty
  | .obj fs => !fs.isEmpty

/-- Python dict with string keys, modelled as an insertion-ordered
association list (keys of dicts coming from Python are distinct). -/
abbrev Dict := List (String × JValue)

/-- Python `d.get(k)`: the value at key `k` (first occurrence), `none` when
the key is absent (Python `None`). -/
def Dict.get? (d : Dict) (k : String) : Option JValue :=
  (d.find? (fun kv => kv.1 == k)).map Prod.snd

/-- Python `d[k] = v`: replace the value at the first occurrence of `k`
keeping its position, else append `(k, v)` at the end. -/
def Dict.insert : Dict → String → JValue → Dict
  | [], k, v => [(k, v)]
  | kv :: rest, k, v =>
      if kv.1 == k then (k, v) :: rest else kv :: Dict.insert rest k v

/-- Python `d.update(overrides)`: write each override entry into `d` in
order (later-write-wins, shallow merge). -/
def Dict.update (d overrides : Dict) : Dict :=
  overrides.foldl (fun acc kv => Dict.insert acc kv.1 kv.2) d

/-- The `PipelineStateInfo` objects returned by
`client.pipelines.list_pipelines()`: an id and a name.  The name is a
`JValue` because `create_or_update` compares it with the spec's `name`
value using Python `==`. -/
structure PipelineStateInfo where
  pipeline_id : String
  name : JValue

/-- A call issued to the pipelines facade by the embedded functions, with
the payload it carries. -/
inductive FacadeCall where
  | listCall
  | createCall (spec : Dict)
  | updateCall (spec : Dict)

/-- The external `client.pipelines` facade: the response (or raised
exception message) of each remote operation, as a function of the payload
the caller sends. -/
structure Facade where
  listResult : Except String (List PipelineStateInfo)
  createResult : Dict → Except String String
  updateResult : Dict → Except String Unit

/-- Python exceptions raised by the embedded functions themselves. -/
inductive PyExc where
  | valueError (msg : String)
  | runtimeError (msg : String)

/-- Embedding of `create_or_update` (src/src/databricks_utils/pipelines/core.py,
lines 236-279).  The spec argument is the parsed form of the caller's spec
(`json.loads` of a JSON string, or a copy of the dict); `kwargs` are the
keyword overrides.  Returns the Python result — `(pipeline_id, was_created)`
or a raised exception — together with the facade calls issued, in order.
The `try` block wraps the listing, the name scan and the create/update
calls; any exception there is re-raised as
`RuntimeError("Failed to determine if pipeline exists: " + str(e))`. -/
def create_or_update (client : Facade) (spec : Dict) (kwargs : Dict) :
    Except PyExc (String × Bool) × List FacadeCall :=
  let parsed_spec := Dict.update spec kwargs
  match Dict.get? parsed_spec "name" with
  | none =>
      (.error (.valueError "Pipeline spec must include 'name' field"), [])
  | some pipeline_name =>
    if pipeline_name.truthy then
      match client.listResult with
      | .error e =>
          (.error (.runtimeError ("Failed to determine if pipeline exists: " ++ e)),
           [.listCall])
      | .ok all_pipelines =>
        match all_pipelines.find? (fun p => p.name == pipeline_name) with
        | some existing_pipeline =>
            let pipeline_id := existing_pipeline.pipeline_id
            let update_spec := Dict.insert parsed_spec "pipeline_id" (.str pipeline_id)
            match client.updateResult update_spec with
            | .error e =>
                (.error (.runtimeError ("Failed to determine if pipeline exists: " ++ e)),
                 [.listCall, .updateCall update_spec])
            | .ok _ =>
                (.ok (pipeline_id, false), [.listCall, .updateCall update_spec])
        | none =>
            match client.createResult parsed_spec with
            | .error e =>
                (.error (.runtimeError ("Failed to determine if pipeline exists: " ++ e)),
                 [.listCall, .createCall parsed_spec])
            | .ok new_id =>
                (.ok (new_id, true), [.listCall, .createCall parsed_spec])
    else
      (.error (.valueError "Pipeline spec must include 'name' field"), [])

/-- Embedding of `create` (core.py lines 17-70): merge kwargs into the
parsed spec and forward it to `client.pipelines.create`; exceptions from
the facade propagate unwrapped. -/
def create (client : Facade) (spec : Dict) (kwargs : Dict) :
    Except String String × List FacadeCall :=
  let spec' := Dict.update spec kwargs
  (client.createResult spec', [.createCall spec'])

/-- Embedding of `update` (core.py lines 146-182): start from the parsed
spec when one is given (`if spec:` — Python truthiness, so `None` and the
empty dict both give `{}`), merge kwargs, then set `pipeline_id`, and
forward to `client.pipelines.update`. -/
def update (client : Facade) (pipeline_id : String) (spec : Option Dict)
    (kwargs : Dict) : Except String Unit × List FacadeCall :=
  let base : Dict :=
    match spec with
    | some s => if s.isEmpty then [] else s
    | none => []
  let update_spec := Dict.insert (Dict.update base kwargs) "pipeline_id" (.str pipeline_id)
  (client.updateResult update_spec, [.updateCall update_spec])

/-- A model of the remote platform's state for reasoning about successive
`create_or_update` calls: the pipelines currently visible to `list_pipelines`
and a counter from which fresh pipeline ids are drawn. -/
structure World where
  pipelines : List PipelineStateInfo
  next_id : Nat

/-- The fresh pipeline id the platform hands out for counter value `n`. -/
def World.idString (n : Nat) : String := "pipeline-" ++ toString n

/-- The facade a `World` presents: listing shows the current pipelines,
create succeeds returning a fresh id, update succeeds. -/
def World.facade (w : World) : Facade where
  listResult := .ok w.pipelines
  createResult := fun _ => .ok (World.idString w.next_id)
  updateResult := fun _ => .ok ()

/-- Platform state transition for one facade call: a created pipeline
becomes visible to subsequent list calls under the spec's name; an update
rewrites the targeted pipeline's name from the carried spec; nothing is
ever deleted. -/
def World.applyCall (w : World) : FacadeCall → World
  | .listCall => w
  | .createCall spec =>
      { pipelines :=
          w.pipelines ++ [⟨World.idString w.next_id, (Dict.get? spec "name").getD .null⟩],
        next_id := w.next_id + 1 }
  | .updateCall spec =>
      { w with pipelines := w.pipelines.map (fun p =>
          if Dict.get? spec "pipeline_id" == some (.str p.pipeline_id) then
            { p with name := (Dict.get? spec "name").getD p.name }
          else p) }

/-- A call issued by the polling loops.  The call vocabulary deliberately
includes the cancel/stop operation the facade offers (`client.pipelines.stop`),
so that the claim that the poller never cancels the watched operation is a
statement about the emitted trace. -/
inductive PollCall where
  | getStatus (k : Nat)
  | sleepCall (seconds : Int)
  | cancelCall

/-- Embedding of the polling loop shared verbatim by `wait_for_update`
(core.py lines 492-510) and `wait_for_run` (jobs.py lines 35-49):
`elapsed = 0; while elapsed < timeout_seconds: fetch; if terminal: return;
sleep(poll_interval_seconds); elapsed += poll_interval_seconds` and then
`raise TimeoutError(timeout_msg)`.  `fetch k` is the status the facade
returns to the k-th fetch (0-based).  The loop may not terminate (interval
zero), so it is driven by explicit fuel: `none` means the loop is still
running after `fuel` iterations; `some (r, trace)` means it finished with
result `r` (the returned object, or the TimeoutError message) after
issuing the calls in `trace`. -/
def poll_loop {α : Type} (fetch : Nat → α) (is_terminal : α → Bool)
    (timeout_msg : String) (timeout_seconds poll_interval_seconds : Int) :
    Nat → Int → Nat → Option (Except String α × List PollCall)
  | 0, _, _ => none
  | fuel + 1, elapsed, k =>
    if elapsed < timeout_seconds then
      let u := fetch k
      if is_terminal u then some (.ok u, [.getStatus k])
      else
        match poll_loop fetch is_terminal timeout_msg timeout_seconds
            poll_interval_seconds fuel (elapsed + poll_interval_seconds) (k + 1) with
        | none => none
        | some (r, tr) => some (r, .getStatus k :: .sleepCall poll_interval_seconds :: tr)
    else some (.error timeout_msg, [])

/-- The update object fetched by `client.pipelines.get_update`, reduced to
the field the loop inspects: `update.state.value`. -/
structure PipelineUpdate where
  state_value : String

/-- Terminal pipeline-update states (core.py line 502). -/
def update_is_terminal (u : PipelineUpdate) : Bool :=
  ["COMPLETED", "FAILED", "CANCELED"].contains u.state_value

/-- Embedding of `wait_for_update` (core.py lines 457-510), with the status
stream `fetch` standing for successive `get_update` responses and explicit
fuel (see `poll_loop`). -/
def wait_for_update (fetch : Nat → PipelineUpdate) (update_id : String)
    (timeout_seconds poll_interval_seconds : Int) (fuel : Nat) :
    Option (Except String PipelineUpdate × List PollCall) :=
  poll_loop fetch update_is_terminal
    ("Pipeline update " ++ update_id ++ " did not complete within " ++
      toString timeout_seconds ++ " seconds")
    timeout_seconds poll_interval_seconds fuel 0 0

/-- The run object fetched by `client.jobs.get_run`, reduced to the field
the loop inspects: `run.state.life_cycle_state`. -/
structure Run where
  life_cycle_state : String

/-- Terminal job-run life-cycle states (jobs.py line 41). -/
def run_is_terminal (r : Run) : Bool :=
  ["TERMINATED", "SKIPPED", "INTERNAL_ERROR"].contains r.life_cycle_state

/-- Embedding of `wait_for_run` (jobs.py lines 8-49), with the status
stream `fetch` standing for successive `get_run` responses and explicit
fuel (see `poll_loop`). -/
def wait_for_run (fetch : Nat → Run) (run_id : Int)
    (timeout_seconds poll_interval_seconds : Int) (fuel : Nat) :
    Option (Except String Run × List PollCall) :=
  poll_loop fetch run_is_terminal
    ("Job run " ++ toString run_id ++ " did not complete within " ++
      toString timeout_seconds ++ " seconds")
    timeout_seconds poll_interval_seconds fuel 0 0

/-- The trace the polling loop emits when the status stream turns terminal
at the n-th fetch counting from fetch index k: n alternations of a fetch
and a sleep, then the final fetch that observes the terminal state. -/
def pollTrace (interval : Int) : Nat → Nat → List PollCall
  | k, 0 => [.getStatus k]
  | k, n + 1 => .getStatus k :: .sleepCall interval :: pollTrace interval (k + 1) n

/-- Number of sleeps in a poll trace. -/
def sleep_count (tr : List PollCall) : Nat :=
  tr.countP (fun c => match c with | .sleepCall _ => true | _ => false)

/-- The response of `client.workspace.export`, reduced to the field the
code inspects: `content` (`none` models Python `None`, otherwise the
base64 text, possibly empty). -/
structure ExportResponse where
  content : Option String

/-- The external collaborators of the notebook helpers in
src/src/databricks_utils/workspace.py: the format/language enum lookups
(`ExportFormat[format.upper()]`, `Language[language.upper()]` — a `KeyError`
for unknown names is an `Except.error`), the workspace export/import calls,
the file system (mkdir, read, write), and base64 decode (encode never
raises).  Every fallible step's outcome is an `Except` value. -/
structure WorkspaceEnv where
  format_lookup : String → Except String Unit
  export_result : Except String ExportResponse
  mkdir_result : Except String Unit
  b64decode : String → Except String (List Nat)
  write_result : List Nat → Except String Unit
  read_result : Except String (List Nat)
  b64encode : List Nat → String
  language_lookup : String → Except String Unit
  import_result : String → Except String Unit

/-- Embedding of `export_notebook` (workspace.py lines 53-100).  The whole
body is inside `try: ... except Exception: return False`, so every failing
step yields `false`; an export response with falsy `content` (None or the
empty string) reaches the trailing `return False`.  The embedding is a
total `Bool`-valued function: no exception can escape. -/
def export_notebook (env : WorkspaceEnv) (format : String) : Bool :=
  match env.format_lookup format with
  | .error _ => false
  | .ok _ =>
    match env.export_result with
    | .error _ => false
    | .ok exported =>
      match env.mkdir_result with
      | .error _ => false
      | .ok _ =>
        match exported.content with
        | none => false
        | some c =>
          if c.isEmpty then false
          else
            match env.b64decode c with
            | .error _ => false
            | .ok content =>
              match env.write_result content with
              | .error _ => false
              | .ok _ => true

/-- Embedding of `import_notebook` (workspace.py lines 103-152).  The whole
body is inside `try: ... except Exception: return False`; the language enum
lookup happens only under `if language:` (Python truthiness, so `None` and
the empty string skip it).  The embedding is a total `Bool`-valued
function: no exception can escape. -/
def import_notebook (env : WorkspaceEnv) (language : Option String) : Bool :=
  match env.read_result with
  | .error _ => false
  | .ok data =>
    let content := env.b64encode data
    let language_step : Except String Unit :=
      match language with
      | some l => if l.isEmpty then .ok () else env.language_lookup l
      | none => .ok ()
    match language_step with
    | .error _ => false
    | .ok _ =>
      match env.import_result content with
      | .error _ => false
      | .ok _ => true

/-! Helper lemmas about the embedded operations. -/

theorem Dict.get?_cons (k0 : String) (v0 : JValue) (rest : Dict) (k : String) :
    Dict.get? ((k0, v0) :: rest) k = if k0 = k then some v0 else Dict.get? rest k := by
  by_cases h : k0 = k <;> simp [Dict.get?, List.find?_cons, h]

theorem Dict.get?_insert (d : Dict) (k k2 : String) (v : JValue) :
    Dict.get? (Dict.insert d k v) k2 = if k2 = k then some v else Dict.get? d k2 := by
  induction d with
  | nil =>
    by_cases h : k2 = k
    · subst h; simp [Dict.insert, Dict.get?_cons]
    · have hb : ¬ k = k2 := fun hc => h hc.symm
      simp [Dict.insert, Dict.get?_cons, hb, h, Dict.get?]
  | cons kv rest ih =>
    obtain ⟨k0, v0⟩ := kv
    by_cases hk : k0 = k
    · subst hk
      have hstep : Dict.insert ((k0, v0) :: rest) k0 v = (k0, v) :: rest := by
        simp [Dict.insert]
      rw [hstep]
      by_cases h2 : k2 = k0
      · subst h2; simp [Dict.get?_cons]
      · have hb : ¬ k0 = k2 := fun hc => h2 hc.symm
        simp [Dict.get?_cons, hb, h2]
    · have hkb : (k0 == k) = false := by simp [hk]
      have hstep : Dict.insert ((k0, v0) :: rest) k v = (k0, v0) :: Dict.insert rest k v := by
        simp [Dict.insert, hkb]
      rw [hstep]
      by_cases h2 : k0 = k2
      · subst h2
        simp [Dict.get?_cons, hk]
      · simp [Dict.get?_cons, h2, ih]

theorem Dict.get?_eq_none_of_not_mem (d : Dict) (k : String)
    (h : k ∉ d.map Prod.fst) : Dict.get? d k = none := by
  have hf : d.find? (fun kv => kv.1 == k) = none := by
    refine List.find?_eq_none.mpr ?_
    intro kv hkv hbeq
    have h1 : kv.1 = k := by simpa using hbeq
    exact h (h1 ▸ List.mem_map_of_mem Prod.fst hkv)
  simp [Dict.get?, hf]

theorem Dict.get?_update (k : String) :
    ∀ (overrides base : Dict), (overrides.map Prod.fst).Nodup →
      Dict.get? (Dict.update base overrides) k =
        (match Dict.get? overrides k with
         | some v => some v
         | none => Dict.get? base k) := by
  intro overrides
  induction overrides with
  | nil => intro base hnd; simp [Dict.update, Dict.get?]
  | cons kv rest ih =>
    intro base hnd
    obtain ⟨k0, v0⟩ := kv
    simp only [List.map_cons, List.nodup_cons] at hnd
    have hstep : Dict.update base ((k0, v0) :: rest) =
        Dict.update (Dict.insert base k0 v0) rest := rfl
    rw [hstep, ih _ hnd.2]
    cases hr : Dict.get? rest k with
    | some v =>
      have hk0 : ¬ k0 = k := by
        intro hc; subst hc
        rw [Dict.get?_eq_none_of_not_mem rest k0 hnd.1] at hr
        exact Option.noConfusion hr
      simp [hr, Dict.get?_cons, hk0]
    | none =>
      by_cases hk : k = k0
      · subst hk
        simp [hr, Dict.get?_cons, Dict.get?_insert]
      · have hk2 : ¬ k0 = k := fun hc => hk hc.symm
        simp [hr, Dict.get?_cons, hk2, Dict.get?_insert, hk]

theorem poll_loop_terminal {α : Type} (fetch : Nat → α) (is_terminal : α → Bool)
    (msg : String) (timeout interval : Int) :
    ∀ (n fuel : Nat) (elapsed : Int) (k : Nat),
      (∀ j, j < n → is_terminal (fetch (k + j)) = false) →
      is_terminal (fetch (k + n)) = true →
      0 ≤ interval →
      elapsed + (n : Int) * interval < timeout →
      n < fuel →
      poll_loop fetch is_terminal msg timeout interval fuel elapsed k =
        some (.ok (fetch (k + n)), pollTrace interval k n) := by
  intro n
  induction n with
  | zero =>
    intro fuel elapsed k h0 hterm hint hlt hfuel
    match fuel, hfuel with
    | f + 1, _ =>
      have hg : elapsed < timeout := by simpa using hlt
      have hterm2 : is_terminal (fetch k) = true := by simpa using hterm
      simp [poll_loop, pollTrace, hg, hterm2]
  | succ n ih =>
    intro fuel elapsed k h0 hterm hint hlt hfuel
    match fuel, hfuel with
    | f + 1, hfuel =>
      have hnn : (0 : Int) ≤ ((n : Int) + 1) * interval := by positivity
      have hg : elapsed < timeout := by push_cast at hlt; linarith
      have h00 : is_terminal (fetch k) = false := by
        have := h0 0 (by omega)
        simpa using this
      have harg : ∀ j, j < n → is_terminal (fetch (k + 1 + j)) = false := by
        intro j hj
        have := h0 (j + 1) (by omega)
        have he : k + (j + 1) = k + 1 + j := by omega
        rwa [he] at this
      have hterm2 : is_terminal (fetch (k + 1 + n)) = true := by
        have he : k + (n + 1) = k + 1 + n := by omega
        rwa [he] at hterm
      have hlt2 : elapsed + interval + (n : Int) * interval < timeout := by
        push_cast at hlt; linarith
      have hrec := ih f (elapsed + interval) (k + 1) harg hterm2 hint hlt2 (by omega)
      have he : k + 1 + n = k + (n + 1) := by omega
      rw [he] at hrec
      simp [poll_loop, hg, h00, hrec, pollTrace]

theorem poll_loop_timeout {α : Type} (fetch : Nat → α) (is_terminal : α → Bool)
    (msg : String) (timeout interval : Int) :
    ∀ (m fuel : Nat) (elapsed : Int) (k : Nat),
      (∀ j, is_terminal (fetch j) = false) →
      timeout - elapsed ≤ (m : Int) * interval →
      m < fuel →
      ∃ tr, poll_loop fetch is_terminal msg timeout interval fuel elapsed k =
          some (.error msg, tr) ∧ PollCall.cancelCall ∉ tr := by
  intro m
  induction m with
  | zero =>
    intro fuel elapsed k hnt hle hf
    match fuel, hf with
    | f + 1, _ =>
      have hg : ¬ elapsed < timeout := by simp at hle; omega
      exact ⟨[], by simp [poll_loop, hg], by simp⟩
  | succ m ih =>
    intro fuel elapsed k hnt hle hf
    match fuel, hf with
    | f + 1, hf =>
      by_cases hg : elapsed < timeout
      · have hle2 : timeout - (elapsed + interval) ≤ (m : Int) * interval := by
          push_cast at hle; linarith
        obtain ⟨tr, htr, hnc⟩ := ih f (elapsed + interval) (k + 1) hnt hle2 (by omega)
        refine ⟨.getStatus k :: .sleepCall interval :: tr, ?_, ?_⟩
        · simp [poll_loop, hg, hnt k, htr]
        · simp [hnc]
      · exact ⟨[], by simp [poll_loop, hg], by simp⟩

theorem poll_loop_zero_interval {α : Type} (fetch : Nat → α) (is_terminal : α → Bool)
    (msg : String) (timeout : Int) :
    ∀ (fuel : Nat) (elapsed : Int) (k : Nat),
      (∀ j, is_terminal (fetch j) = false) →
      elapsed < timeout →
      poll_loop fetch is_terminal msg timeout 0 fuel elapsed k = none := by
  intro fuel
  induction fuel with
  | zero => intro elapsed k hnt hlt; simp [poll_loop]
  | succ f ih =>
    intro elapsed k hnt hlt
    have hrec := ih (elapsed + 0) (k + 1) hnt (by simpa using hlt)
    have hrec2 : poll_loop fetch is_terminal msg timeout 0 f elapsed (k + 1) = none := by
      simpa using hrec
    simp [poll_loop, hlt, hnt k, hrec2]

theorem sleep_count_pollTrace (interval : Int) :
    ∀ (n k : Nat), sleep_count (pollTrace interval k n) = n := by
  intro n
  induction n with
  | zero => intro k; simp [pollTrace, sleep_count]
  | succ n ih =>
    intro k
    have hk := ih (k + 1)
    simp [pollTrace, sleep_count, List.countP_cons] at hk ⊢
    omega

theorem getLast?_pollTrace (interval : Int) :
    ∀ (n k : Nat), (pollTrace interval k n).getLast? = some (.getStatus (k + n)) := by
  intro n
  induction n with
  | zero => intro k; simp [pollTrace]
  | succ n ih =>
    intro k
    have hih := ih (k + 1)
    have he : k + 1 + n = k + (n + 1) := by omega
    rw [he] at hih
    show (PollCall.getStatus k :: PollCall.sleepCall interval ::
        pollTrace interval (k + 1) n).getLast? = _
    rw [List.getLast?_cons_cons]
    cases n with
    | zero =>
      simp only [pollTrace] at hih ⊢
      rw [List.getLast?_cons_cons]
      exact hih
    | succ m =>
      show (PollCall.sleepCall interval :: PollCall.getStatus (k + 1) ::
          PollCall.sleepCall interval :: pollTrace interval (k + 1 + 1) m).getLast? = _
      rw [List.getLast?_cons_cons]
      exact hih

/-! Claim theorems. -/

/-- C1: for every specification whose merged form contains a non-empty name,
`create_or_update` lists all pipelines and linearly scans for the first one
whose name equals the spec's name; if one is found it issues exactly one
update call carrying the full merged specification plus the discovered
pipeline identifier and returns (that identifier, false); if none is found
it issues exactly one create call carrying the full merged specification
and returns (the identifier returned by create, true). -/
theorem claim_C1 (client : Facade) (spec kwargs : Dict) (name : String)
    (ps : List PipelineStateInfo)
    (hname : Dict.get? (Dict.update spec kwargs) "name" = some (.str name))
    (hne : name.isEmpty = false)
    (hlist : client.listResult = .ok ps) :
    (∀ p, ps.find? (fun q => q.name == JValue.str name) = some p →
        client.updateResult
            (Dict.insert (Dict.update spec kwargs) "pipeline_id" (.str p.pipeline_id)) = .ok () →
        create_or_update client spec kwargs =
          (.ok (p.pipeline_id, false),
           [.listCall,
            .updateCall (Dict.insert (Dict.update spec kwargs) "pipeline_id"
              (.str p.pipeline_id))])) ∧
    (ps.find? (fun q => q.name == JValue.str name) = none →
      ∀ new_id, client.createResult (Dict.update spec kwargs) = .ok new_id →
        create_or_update client spec kwargs =
          (.ok (new_id, true), [.listCall, .createCall (Dict.update spec kwargs)])) := by
  constructor
  · intro p hfind hupd
    simp [create_or_update, hname, JValue.truthy, hne, hlist, hfind, hupd]
  · intro hfind new_id hcreate
    simp [create_or_update, hname, JValue.truthy, hne, hlist, hfind, hcreate]

/-- Witness for C1: a facade listing one pipeline named p1; reconciling a
spec named p1 issues one update carrying the merged spec plus the found id
and returns (id1, false). -/
theorem claim_C1_witness :
    create_or_update
        { listResult := .ok [{ pipeline_id := "id1", name := .str "p1" }],
          createResult := fun _ => .ok "newid",
          updateResult := fun _ => .ok () }
        [("name", .str "p1"), ("storage", .str "/x")] [] =
      (.ok ("id1", false),
       [.listCall,
        .updateCall [("name", .str "p1"), ("storage", .str "/x"),
          ("pipeline_id", .str "id1")]]) :=
  (claim_C1
      { listResult := .ok [{ pipeline_id := "id1", name := .str "p1" }],
        createResult := fun _ => .ok "newid",
        updateResult := fun _ => .ok () }
      [("name", .str "p1"), ("storage", .str "/x")] [] "p1"
      [{ pipeline_id := "id1", name := .str "p1" }] rfl rfl rfl).1
    { pipeline_id := "id1", name := .str "p1" } rfl rfl

/-- C2: against a facade in which a created pipeline is visible to
subsequent list calls and no deletion occurs (`World`), two successive
`create_or_update` calls with the same (initially absent) name return the
same pipeline identifier, with was_created = true on the first call only
and false on the second. -/
theorem claim_C2 (w : World) (s1 kw1 s2 kw2 : Dict) (n : String)
    (hn1 : Dict.get? (Dict.update s1 kw1) "name" = some (.str n))
    (hn2 : Dict.get? (Dict.update s2 kw2) "name" = some (.str n))
    (hne : n.isEmpty = false)
    (habsent : ∀ p ∈ w.pipelines, (p.name == JValue.str n) = false) :
    ∃ pid,
      (create_or_update w.facade s1 kw1).1 = .ok (pid, true) ∧
      (create_or_update
          (((create_or_update w.facade s1 kw1).2.foldl World.applyCall w).facade)
          s2 kw2).1 = .ok (pid, false) := by
  have find1 : w.pipelines.find? (fun p => p.name == JValue.str n) = none :=
    List.find?_eq_none.mpr (fun p hp => by simp [habsent p hp])
  have hfirst : create_or_update w.facade s1 kw1 =
      (.ok (World.idString w.next_id, true),
       [.listCall, .createCall (Dict.update s1 kw1)]) := by
    simp [create_or_update, hn1, JValue.truthy, hne, World.facade, find1]
  refine ⟨World.idString w.next_id, by rw [hfirst], ?_⟩
  rw [hfirst]
  have hw2 : ([FacadeCall.listCall, FacadeCall.createCall (Dict.update s1 kw1)].foldl
      World.applyCall w) =
      { pipelines := w.pipelines ++
          [{ pipeline_id := World.idString w.next_id, name := JValue.str n }],
        next_id := w.next_id + 1 } := by
    simp [List.foldl, World.applyCall, hn1]
  rw [hw2]
  have hb : (JValue.str n == JValue.str n) = true := by
    simp [BEq.beq, JValue.beq]
  simp [create_or_update, hn2, JValue.truthy, hne, World.facade, find1, hb]

/-- Witness for C2: empty world, spec p1 with storage /x then /y — first
reconcile creates, second reconcile returns the same id with false. -/
theorem claim_C2_witness :
    ∃ pid,
      (create_or_update (World.facade ⟨[], 0⟩)
          [("name", .str "p1"), ("storage", .str "/x")] []).1 = .ok (pid, true) ∧
      (create_or_update
          (World.facade (((create_or_update (World.facade ⟨[], 0⟩)
              [("name", .str "p1"), ("storage", .str "/x")] []).2).foldl
            World.applyCall ⟨[], 0⟩))
          [("name", .str "p1"), ("storage", .str "/y")] []).1 = .ok (pid, false) :=
  claim_C2 ⟨[], 0⟩ _ _ _ _ "p1" rfl rfl rfl (by simp)

/-- C3: if the status fetched at index n is the first terminal one and the
accumulated simulated elapsed time after n sleeps is still below the
timeout, both pollers return that object immediately after the (n+1)-th
fetch, performing exactly n sleeps and never sleeping after observing the
terminal state (the emitted trace ends with the final fetch). -/
theorem claim_C3 (fetchU : Nat → PipelineUpdate) (fetchR : Nat → Run)
    (update_id : String) (run_id : Int) (timeout interval : Int) (n fuel : Nat)
    (hint : 0 ≤ interval)
    (hlt : (n : Int) * interval < timeout)
    (hfuel : n < fuel)
    (hU0 : ∀ j, j < n → update_is_terminal (fetchU j) = false)
    (hU1 : update_is_terminal (fetchU n) = true)
    (hR0 : ∀ j, j < n → run_is_terminal (fetchR j) = false)
    (hR1 : run_is_terminal (fetchR n) = true) :
    wait_for_update fetchU update_id timeout interval fuel =
      some (.ok (fetchU n), pollTrace interval 0 n) ∧
    wait_for_run fetchR run_id timeout interval fuel =
      some (.ok (fetchR n), pollTrace interval 0 n) ∧
    sleep_count (pollTrace interval 0 n) = n ∧
    (pollTrace interval 0 n).getLast? = some (.getStatus n) := by
  have h1 := poll_loop_terminal fetchU update_is_terminal
    ("Pipeline update " ++ update_id ++ " did not complete within " ++
      toString timeout ++ " seconds") timeout interval n fuel 0 0
    (by simpa using hU0) (by simpa using hU1) hint (by simpa using hlt) hfuel
  have h2 := poll_loop_terminal fetchR run_is_terminal
    ("Job run " ++ toString run_id ++ " did not complete within " ++
      toString timeout ++ " seconds") timeout interval n fuel 0 0
    (by simpa using hR0) (by simpa using hR1) hint (by simpa using hlt) hfuel
  refine ⟨by simpa [wait_for_update] using h1, by simpa [wait_for_run] using h2,
    sleep_count_pollTrace interval n 0, by simpa using getLast?_pollTrace interval n 0⟩

/-- Witness for C3: statuses RUNNING, RUNNING, COMPLETED (resp. PENDING,
PENDING, TERMINATED) with interval 1 and timeout 10: the poller returns
after the third fetch with exactly two sleeps. -/
theorem claim_C3_witness :
    wait_for_update (fun j => if j < 2 then ⟨"RUNNING"⟩ else ⟨"COMPLETED"⟩) "u1" 10 1 3 =
      some (.ok ⟨"COMPLETED"⟩, pollTrace 1 0 2) ∧
    wait_for_run (fun j => if j < 2 then ⟨"PENDING"⟩ else ⟨"TERMINATED"⟩) 7 10 1 3 =
      some (.ok ⟨"TERMINATED"⟩, pollTrace 1 0 2) ∧
    sleep_count (pollTrace 1 0 2) = 2 ∧
    (pollTrace 1 0 2).getLast? = some (.getStatus 2) :=
  claim_C3 _ _ "u1" 7 10 1 2 3 (by decide) (by decide) (by decide)
    (by decide) (by decide) (by decide) (by decide)

/-- C4: if every fetched status is non-terminal, both pollers accumulate
simulated elapsed time in interval increments and, once it reaches the
timeout, finish with the TimeoutError message naming the watched
identifier and the bound; the emitted trace never contains a cancel/stop
call on the watched operation. -/
theorem claim_C4 (fetchU : Nat → PipelineUpdate) (fetchR : Nat → Run)
    (update_id : String) (run_id : Int) (timeout interval : Int) (fuel : Nat)
    (hU : ∀ j, update_is_terminal (fetchU j) = false)
    (hR : ∀ j, run_is_terminal (fetchR j) = false)
    (hfuel : timeout ≤ (fuel : Int) * interval) :
    (∃ tr, wait_for_update fetchU update_id timeout interval (fuel + 1) =
        some (.error ("Pipeline update " ++ update_id ++ " did not complete within " ++
          toString timeout ++ " seconds"), tr) ∧ PollCall.cancelCall ∉ tr) ∧
    (∃ tr, wait_for_run fetchR run_id timeout interval (fuel + 1) =
        some (.error ("Job run " ++ toString run_id ++ " did not complete within " ++
          toString timeout ++ " seconds"), tr) ∧ PollCall.cancelCall ∉ tr) := by
  constructor
  · exact poll_loop_timeout fetchU update_is_terminal _ timeout interval fuel (fuel + 1)
      0 0 hU (by simpa using hfuel) (by omega)
  · exact poll_loop_timeout fetchR run_is_terminal _ timeout interval fuel (fuel + 1)
      0 0 hR (by simpa using hfuel) (by omega)

/-- Witness for C4: a constant RUNNING stream with timeout 2 and interval 1
yields the TimeoutError result and a cancel-free trace for both pollers. -/
theorem claim_C4_witness :
    (∃ tr, wait_for_update (fun _ => ⟨"RUNNING"⟩) "u1" 2 1 (2 + 1) =
        some (.error ("Pipeline update " ++ "u1" ++ " did not complete within " ++
          toString (2 : Int) ++ " seconds"), tr) ∧ PollCall.cancelCall ∉ tr) ∧
    (∃ tr, wait_for_run (fun _ => ⟨"RUNNING"⟩) 7 2 1 (2 + 1) =
        some (.error ("Job run " ++ toString (7 : Int) ++ " did not complete within " ++
          toString (2 : Int) ++ " seconds"), tr) ∧ PollCall.cancelCall ∉ tr) :=
  claim_C4 _ _ "u1" 7 2 1 2 (fun _ => by decide) (fun _ => by decide) (by decide)

/-- C5: if the merged specification has no name field or an empty name,
`create_or_update` raises ValueError and no facade call is issued (the
emitted call trace is empty, so remote state is untouched). -/
theorem claim_C5 (client : Facade) (spec kwargs : Dict)
    (h : Dict.get? (Dict.update spec kwargs) "name" = none ∨
         Dict.get? (Dict.update spec kwargs) "name" = some (.str "")) :
    create_or_update client spec kwargs =
      (.error (.valueError "Pipeline spec must include 'name' field"), []) := by
  have he : "".isEmpty = true := rfl
  rcases h with h | h <;> simp [create_or_update, h, JValue.truthy, he]

/-- Witness for C5: a spec with no name field raises ValueError with an
empty call trace. -/
theorem claim_C5_witness :
    create_or_update ⟨.ok [], fun _ => .ok "x", fun _ => .ok ()⟩
        [("storage", .str "/x")] [] =
      (.error (.valueError "Pipeline spec must include 'name' field"), []) :=
  claim_C5 _ _ _ (Or.inl rfl)

/-- C6: the merged specification used by create, update and
create_or_update maps every key present in the overrides to the override's
value and every other key to the base's value; the merge is shallow, so a
nested structure supplied as an override wholly replaces the base's; in
particular merging a:1 with override a:2 yields a:2. -/
theorem claim_C6 (base overrides : Dict) (k : String) (client : Facade)
    (pid : String) (s : Dict)
    (hnd : (overrides.map Prod.fst).Nodup) (hs : s.isEmpty = false) :
    Dict.get? (Dict.update base overrides) k =
      (match Dict.get? overrides k with
       | some v => some v
       | none => Dict.get? base k) ∧
    Dict.update [("a", .num 1)] [("a", .num 2)] = [("a", .num 2)] ∧
    Dict.update [("cfg", .obj [("x", .num 1), ("y", .num 2)])]
        [("cfg", .obj [("x", .num 9)])] = [("cfg", .obj [("x", .num 9)])] ∧
    (create client base overrides).2 = [.createCall (Dict.update base overrides)] ∧
    (update client pid (some s) overrides).2 =
      [.updateCall (Dict.insert (Dict.update s overrides) "pipeline_id" (.str pid))] := by
  refine ⟨Dict.get?_update k overrides base hnd, rfl, rfl, rfl, ?_⟩
  simp [update, hs]

/-- Witness for C6: overridden key a maps to the override value, key b
keeps the base value, and create/update carry the merged dict. -/
theorem claim_C6_witness :
    Dict.get? (Dict.update [("a", .num 1), ("b", .str "x")]
        [("a", .num 2), ("c", .bool true)]) "a" = some (.num 2) ∧
    Dict.update [("a", .num 1)] [("a", .num 2)] = [("a", .num 2)] ∧
    Dict.update [("cfg", .obj [("x", .num 1), ("y", .num 2)])]
        [("cfg", .obj [("x", .num 9)])] = [("cfg", .obj [("x", .num 9)])] ∧
    (create ⟨.ok [], fun _ => .ok "x", fun _ => .ok ()⟩ [("a", .num 1), ("b", .str "x")]
        [("a", .num 2), ("c", .bool true)]).2 =
      [.createCall [("a", .num 2), ("b", .str "x"), ("c", .bool true)]] ∧
    (update ⟨.ok [], fun _ => .ok "x", fun _ => .ok ()⟩ "pid9" (some [("t", .null)])
        [("a", .num 2), ("c", .bool true)]).2 =
      [.updateCall [("t", .null), ("a", .num 2), ("c", .bool true),
        ("pipeline_id", .str "pid9")]] :=
  claim_C6 [("a", .num 1), ("b", .str "x")] [("a", .num 2), ("c", .bool true)] "a"
    ⟨.ok [], fun _ => .ok "x", fun _ => .ok ()⟩ "pid9" [("t", .null)]
    (by simp) rfl

/-- C7: if the facade's list operation raises during the existence check,
`create_or_update` raises a RuntimeError whose message begins "Failed to
determine if pipeline exists" and embeds only the original exception's
message, rather than propagating the underlying exception. -/
theorem claim_C7 (client : Facade) (spec kwargs : Dict) (name e : String)
    (hname : Dict.get? (Dict.update spec kwargs) "name" = some (.str name))
    (hne : name.isEmpty = false)
    (hlist : client.listResult = .error e) :
    create_or_update client spec kwargs =
      (.error (.runtimeError ("Failed to determine if pipeline exists: " ++ e)),
       [.listCall]) := by
  simp [create_or_update, hname, JValue.truthy, hne, hlist]

/-- Witness for C7: a listing failure with message "connection reset" is
reported as the single generic reconciliation failure. -/
theorem claim_C7_witness :
    create_or_update
        { listResult := .error "connection reset",
          createResult := fun _ => .ok "newid",
          updateResult := fun _ => .ok () }
        [("name", .str "p1")] [] =
      (.error (.runtimeError
        ("Failed to determine if pipeline exists: " ++ "connection reset")),
       [.listCall]) :=
  claim_C7 _ _ [] "p1" "connection reset" rfl rfl rfl

/-- C8: export_notebook and import_notebook are total Bool-valued over
every facade/file-system/decoder behaviour (exceptions modelled as error
outcomes never escape); they return true exactly when every step succeeds
(for export: format lookup, the export call, mkdir, a non-empty content,
base64 decode, the file write; for import: the file read, the language
lookup when a non-empty language is given, the import call), and false in
every other case. -/
theorem claim_C8 (env : WorkspaceEnv) (format : String) (language : Option String) :
    (export_notebook env format = true ↔
      ∃ exported c bytes,
        env.format_lookup format = .ok () ∧
        env.export_result = .ok exported ∧
        env.mkdir_result = .ok () ∧
        exported.content = some c ∧
        c.isEmpty = false ∧
        env.b64decode c = .ok bytes ∧
        env.write_result bytes = .ok ()) ∧
    (import_notebook env language = true ↔
      ∃ data,
        env.read_result = .ok data ∧
        (match language with
         | some l => l.isEmpty = true ∨ env.language_lookup l = .ok ()
         | none => True) ∧
        env.import_result (env.b64encode data) = .ok ()) := by
  constructor
  · unfold export_notebook
    rcases hf : env.format_lookup format with ef | uf
    · simp [hf]
    · cases uf
      rcases he : env.export_result with ee | ex
      · simp [hf, he]
      · rcases hm : env.mkdir_result with em | um
        · simp [hf, he, hm]
        · cases um
          rcases hc : ex.content with _ | c
          · simp [hf, he, hm, hc]
          · by_cases hce : c.isEmpty
            · simp [hf, he, hm, hc, hce]
            · rcases hb : env.b64decode c with eb | bs
              · simp [hf, he, hm, hc, hce, hb]
              · rcases hw : env.write_result bs with ew | uw
                · simp [hf, he, hm, hc, hce, hb, hw]
                · cases uw; simp [hf, he, hm, hc, hce, hb, hw]
  · unfold import_notebook
    rcases hr : env.read_result with er | data
    · simp [hr]
    · rcases language with _ | l
      · rcases hi : env.import_result (env.b64encode data) with ei | ui
        · simp [hr, hi]
        · cases ui; simp [hr, hi]
      · by_cases hl : l.isEmpty
        · rcases hi : env.import_result (env.b64encode data) with ei | ui
          · simp [hr, hl, hi]
          · cases ui; simp [hr, hl, hi]
        · rcases hlk : env.language_lookup l with el | ul
          · simp [hr, hl, hlk]
          · cases ul
            rcases hi : env.import_result (env.b64encode data) with ei | ui
            · simp [hr, hl, hlk, hi]
            · cases ui; simp [hr, hl, hlk, hi]

/-- C9: exceptions raised by the facade's update or create call inside
create_or_update are wrapped in the same generic RuntimeError "Failed to
determine if pipeline exists: ..." as listing failures, so a failed write
is indistinguishable from a failed lookup. -/
theorem claim_C9 (client : Facade) (spec kwargs : Dict) (name : String)
    (ps : List PipelineStateInfo)
    (hname : Dict.get? (Dict.update spec kwargs) "name" = some (.str name))
    (hne : name.isEmpty = false)
    (hlist : client.listResult = .ok ps) :
    (∀ p e, ps.find? (fun q => q.name == JValue.str name) = some p →
        client.updateResult
            (Dict.insert (Dict.update spec kwargs) "pipeline_id" (.str p.pipeline_id)) =
          .error e →
        create_or_update client spec kwargs =
          (.error (.runtimeError ("Failed to determine if pipeline exists: " ++ e)),
           [.listCall,
            .updateCall (Dict.insert (Dict.update spec kwargs) "pipeline_id"
              (.str p.pipeline_id))])) ∧
    (∀ e, ps.find? (fun q => q.name == JValue.str name) = none →
        client.createResult (Dict.update spec kwargs) = .error e →
        create_or_update client spec kwargs =
          (.error (.runtimeError ("Failed to determine if pipeline exists: " ++ e)),
           [.listCall, .createCall (Dict.update spec kwargs)])) := by
  constructor
  · intro p e hfind hupd
    simp [create_or_update, hname, JValue.truthy, hne, hlist, hfind, hupd]
  · intro e hfind hcreate
    simp [create_or_update, hname, JValue.truthy, hne, hlist, hfind, hcreate]

/-- Witness for C9: a failing facade update inside create_or_update is
reported with the same generic existence-check RuntimeError. -/
theorem claim_C9_witness :
    create_or_update
        { listResult := .ok [{ pipeline_id := "id1", name := .str "p1" }],
          createResult := fun _ => .ok "newid",
          updateResult := fun _ => .error "api down" }
        [("name", .str "p1")] [] =
      (.error (.runtimeError ("Failed to determine if pipeline exists: " ++ "api down")),
       [.listCall, .updateCall [("name", .str "p1"), ("pipeline_id", .str "id1")]]) :=
  (claim_C9
      { listResult := .ok [{ pipeline_id := "id1", name := .str "p1" }],
        createResult := fun _ => .ok "newid",
        updateResult := fun _ => .error "api down" }
      [("name", .str "p1")] [] "p1"
      [{ pipeline_id := "id1", name := .str "p1" }] rfl rfl rfl).1
    { pipeline_id := "id1", name := .str "p1" } "api down" rfl rfl

/-- C10: with poll_interval_seconds = 0, a positive timeout and a facade
that never returns a terminal state, both pollers loop forever — after any
number of loop iterations (any fuel) they have neither returned nor raised
(the fuel-indexed execution yields none for every fuel). -/
theorem claim_C10 (fetchU : Nat → PipelineUpdate) (fetchR : Nat → Run)
    (update_id : String) (run_id : Int) (timeout : Int) (fuel : Nat)
    (htimeout : 0 < timeout)
    (hU : ∀ j, update_is_terminal (fetchU j) = false)
    (hR : ∀ j, run_is_terminal (fetchR j) = false) :
    wait_for_update fetchU update_id timeout 0 fuel = none ∧
    wait_for_run fetchR run_id timeout 0 fuel = none :=
  ⟨poll_loop_zero_interval fetchU update_is_terminal _ timeout fuel 0 0 hU htimeout,
   poll_loop_zero_interval fetchR run_is_terminal _ timeout fuel 0 0 hR htimeout⟩

/-- Witness for C10: constant RUNNING statuses, timeout 5, interval 0 — the
loop has not finished even after 100 iterations. -/
theorem claim_C10_witness :
    wait_for_update (fun _ => ⟨"RUNNING"⟩) "u1" 5 0 100 = none ∧
    wait_for_run (fun _ => ⟨"RUNNING"⟩) 7 5 0 100 = none :=
  claim_C10 _ _ "u1" 7 5 100 (by decide) (fun _ => by decide) (fun _ => by decide)

end DatabricksUtils
